import Mathlib

/-!
Verification development for the `bot` repository (an automated copy-trading
agent for a constant-product AMM).  The Rust sources under `src/` are shallowly
embedded: machine integers become `Nat` (with explicit saturation where the
source saturates), fallible code becomes `Option`/`Except`, and a Rust panic
(out-of-bounds index or slice) is modelled as `Except.error ()`.
-/

namespace Bot

/-! ## Data model shared by the decoder (src/wallet.rs)

A `Pubkey` is an opaque 32-byte identifier; we model it as `Nat`.
`CompiledInstruction`, `Message`, `Transaction` carry exactly the fields the
decoder touches: `program_id`, the account list, raw data bytes, and the
transaction's signature list. -/

abbrev Pubkey := Nat

structure CompiledInstruction where
  program_id : Pubkey
  accounts : List Pubkey
  data : List Nat
deriving Repr, DecidableEq

structure Message where
  instructions : List CompiledInstruction
deriving Repr, DecidableEq

structure Transaction where
  signatures : List Nat
  message : Message
deriving Repr, DecidableEq

/-- Structure `SwapInfo` from src/wallet.rs (the decoder's output; the spec calls it
`SwapIntent`). -/
structure SwapInfo where
  pool_id : Pubkey
  amount_in : Nat
  min_amount_out : Nat
  token_in : Pubkey
  token_out : Pubkey
deriving Repr, DecidableEq

/-- Little-endian interpretation of a byte list, as `u64::from_le_bytes` on an
8-byte slice. -/
def u64_le (bs : List Nat) : Nat :=
  bs.foldr (fun b acc => b + 256 * acc) 0

/-- Rust slice indexing `data[lo..hi]`: panics (here `none`) unless
`lo ≤ hi ≤ data.len()`. -/
def slice (data : List Nat) (lo hi : Nat) : Option (List Nat) :=
  if lo ≤ hi ∧ hi ≤ data.length then some ((data.drop lo).take (hi - lo)) else none

/-- Rust `Vec` indexing `v[i]`: panics (here `none`) when `i` is out of bounds. -/
def index (v : List α) (i : Nat) : Option α :=
  v[i]?

/-- The body of the closure in `FastCopyTrader::parse_raydium_swap`
(src/wallet.rs lines 466-472): reads `accounts[1]`, `data[0..8]`, `data[8..16]`,
`accounts[3]`, `accounts[4]`.  `none` models a Rust panic on any out-of-bounds
access. -/
def decode_amm_ix (ix : CompiledInstruction) : Option SwapInfo := do
  let pool ← index ix.accounts 1
  let lo ← slice ix.data 0 8
  let hi ← slice ix.data 8 16
  let tin ← index ix.accounts 3
  let tout ← index ix.accounts 4
  some { pool_id := pool
         amount_in := u64_le lo
         min_amount_out := u64_le hi
         token_in := tin
         token_out := tout }

/-- Embeds `FastCopyTrader::parse_raydium_swap` (src/wallet.rs lines 463-473):
`find` the first instruction whose `program_id` is the AMM program and decode
it.  `Except.error ()` models a panic inside the `map` closure;
`Except.ok none` is the source's `None` (no AMM instruction present). -/
def parse_raydium_swap (amm_program_id : Pubkey) (tx : Transaction) :
    Except Unit (Option SwapInfo) :=
  match tx.message.instructions.find? (fun ix => ix.program_id == amm_program_id) with
  | none => .ok none
  | some ix =>
    match decode_amm_ix ix with
    | none => .error ()
    | some si => .ok (some si)

/-- Returns `true` iff no instruction of `l` targets the AMM program (used to phrase
"the first AMM instruction" positionally). -/
def no_amm_in (amm_program_id : Pubkey) (l : List CompiledInstruction) : Bool :=
  l.all (fun ix => !(ix.program_id == amm_program_id))

/-! ### Concrete decoder inputs used by the claim theorems. -/

/-- A transaction with zero signatures whose single AMM instruction has empty
data: the source slices `data[0..8]` out of bounds. -/
def txShortData : Transaction :=
  { signatures := []
    message := { instructions :=
      [{ program_id := 7, accounts := [10, 11, 12, 13, 14], data := [] }] } }

/-- A transaction with zero signatures whose single AMM instruction is
well-formed (5 accounts, 16 data bytes). -/
def txNoSigs : Transaction :=
  { signatures := []
    message := { instructions :=
      [{ program_id := 7, accounts := [10, 11, 12, 13, 14]
         data := [1, 0, 0, 0, 0, 0, 0, 0, 2, 0, 0, 0, 0, 0, 0, 0] }] } }

/-- The decode of `txNoSigs`'s single instruction. -/
def swapInfoNoSigs : SwapInfo :=
  { pool_id := 11, amount_in := 1, min_amount_out := 2, token_in := 13, token_out := 14 }

/-! ## Execution engine model (src/engine.rs)

`TradingEngine` keeps the fields the verified claims touch; `EngineIx`
distinguishes the two compute-budget instructions from everything else, so the
instruction order of a built transaction is visible in the model. -/

structure TradingEngine where
  compute_units : Nat
  priority_fee : Nat
  base_priority_fee : Nat
  max_retries : Nat
  transaction_count : Nat
  success_count : Nat
  payer : Pubkey
deriving Repr, DecidableEq

/-- Embeds `TradingEngine::new` (src/engine.rs lines 79-100): `compute_units =
1_400_000`, `priority_fee = 1_000_000`, `max_retries = 3`, zero counters. -/
def TradingEngine.new : TradingEngine :=
  { compute_units := 1400000
    priority_fee := 1000000
    base_priority_fee := 1000000
    max_retries := 3
    transaction_count := 0
    success_count := 0
    payer := 0 }

inductive EngineIx where
  | setComputeUnitPrice (microLamports : Nat)
  | setComputeUnitLimit (units : Nat)
  | other (ix : CompiledInstruction)
deriving Repr, DecidableEq

structure BuiltTransaction where
  instructions : List EngineIx
  payer : Pubkey
  blockhash : Nat
deriving Repr, DecidableEq

/-- Embeds `Transaction::new_signed_with_payer`: the signed payload carries the
instruction list in the given order. -/
def new_signed_with_payer (ixs : List EngineIx) (payer : Pubkey) (blockhash : Nat) :
    BuiltTransaction :=
  { instructions := ixs, payer := payer, blockhash := blockhash }

/-- Embeds `TradingEngine::execute_transaction` (src/engine.rs lines 102-134): builds
`priority_ix = set_compute_unit_price(self.priority_fee)`, `compute_ix =
set_compute_unit_limit(self.compute_units)` and signs
`[priority_ix, compute_ix, instruction]`. -/
def execute_transaction (e : TradingEngine) (instruction : EngineIx) (blockhash : Nat) :
    BuiltTransaction :=
  let priority_ix := EngineIx.setComputeUnitPrice e.priority_fee
  let compute_ix := EngineIx.setComputeUnitLimit e.compute_units
  new_signed_with_payer [priority_ix, compute_ix, instruction] e.payer blockhash

/-- Embeds `TradingEngine::execute_early_swap` (src/engine.rs lines 143-192): same
assembly, signed with the caller's `signer` as payer. -/
def execute_early_swap (e : TradingEngine) (swap_ix : EngineIx) (signer : Pubkey)
    (blockhash : Nat) : BuiltTransaction :=
  let priority_ix := EngineIx.setComputeUnitPrice e.priority_fee
  let compute_ix := EngineIx.setComputeUnitLimit e.compute_units
  new_signed_with_payer [priority_ix, compute_ix, swap_ix] signer blockhash

/-- The instruction order the spec claims for every signed transaction:
`[set-CU-limit, set-CU-price, swap]` (stated from the spec's words, to be
compared with the builders above). -/
def spec_order_limit_price_swap : List EngineIx → Bool
  | [EngineIx.setComputeUnitLimit _, EngineIx.setComputeUnitPrice _, _] => true
  | _ => false

/-- Embeds `TradingEngine::get_success_rate` (src/engine.rs lines 136-141), with the
`success_count as f64 / transaction_count as f64` division made checked:
`none` would mean a division by zero reached the division operator. -/
def checked_div (a b : ℚ) : Option ℚ :=
  if b = 0 then none else some (a / b)

def get_success_rate (e : TradingEngine) : Option ℚ :=
  if e.transaction_count = 0 then some 0
  else checked_div (e.success_count : ℚ) (e.transaction_count : ℚ)

/-- The constant `u64::MAX`. -/
def U64_MAX : Nat := 2 ^ 64 - 1

/-- Embeds `u64::saturating_mul` on the `Nat` embedding of `u64`. -/
def saturating_mul_u64 (a b : Nat) : Nat :=
  min (a * b) U64_MAX

/-- Embeds `TradingEngine::max_priority_fee` (src/engine.rs lines 388-391),
parameterized by the base fee the source obtains from
`calculate_optimal_priority_fee`. -/
def max_priority_fee (base_fee : Nat) : Nat :=
  saturating_mul_u64 base_fee 3

/-! ### Retry with fee escalation (src/engine.rs lines 686-706)

The loop state is `(retries, priority_multiplier, priority_fee)`.  On each
failure while `retries < max_retries` the source does `retries += 1;
priority_multiplier *= 2; priority_fee = base_priority_fee *
priority_multiplier` and re-runs the operation.  We carry
`remaining = max_retries - retries` for structural recursion; the source's
guard `retries < max_retries` is exactly `remaining > 0`. -/

structure EscState where
  retries : Nat
  priority_multiplier : Nat
  priority_fee : Nat
deriving Repr, DecidableEq

/-- One failed-attempt update of the escalation state. -/
def escalate_step (base_priority_fee : Nat) (s : EscState) : EscState :=
  { retries := s.retries + 1
    priority_multiplier := s.priority_multiplier * 2
    priority_fee := base_priority_fee * (s.priority_multiplier * 2) }

def escalation_loop (base_priority_fee : Nat) (op : Nat → Except String α) :
    Nat → EscState → Nat → Except String α × EscState
  | remaining, s, attempt =>
    match op attempt with
    | .ok a => (.ok a, s)
    | .error e =>
      match remaining with
      | 0 => (.error e, s)
      | r + 1 =>
        escalation_loop base_priority_fee op r (escalate_step base_priority_fee s) (attempt + 1)

/-- Embeds `TradingEngine::retry_with_escalation`: initial state has `retries = 0`,
`priority_multiplier = 1`, and the engine's current `priority_fee`. -/
def retry_with_escalation (base_priority_fee max_retries : Nat)
    (op : Nat → Except String α) (init_fee : Nat) : Except String α × EscState :=
  escalation_loop base_priority_fee op max_retries
    { retries := 0, priority_multiplier := 1, priority_fee := init_fee } 0

/-- An operation that fails on every attempt. -/
def alwaysFailOp : Nat → Except String Unit :=
  fun _ => .error "submit failed"

/-! ## Error classification (src/error.rs and src/engine.rs)

`ClientError` and `TransactionError` embed the solana client error shapes the
source matches on; `BotError` is src/error.rs's own taxonomy. -/

inductive TransactionError where
  | InsufficientFunds
  | otherTx (detail : String)
deriving Repr, DecidableEq

inductive ClientError where
  | RpcError (detail : String)
  | TransactionError (e : TransactionError)
  | IoError (detail : String)
  | otherClient (detail : String)
deriving Repr, DecidableEq

inductive BotError where
  | RPCError (s : String)
  | TransactionFailed (s : String)
  | PreLiquidityError (s : String)
  | PrivilegeError (s : String)
  | NetworkError (s : String)
  | InsufficientFunds (s : String)
  | SlippageError (s : String)
  | TradingError (s : String)
deriving Repr, DecidableEq

/-- Embeds `impl From<ClientError> for BotError` (src/error.rs lines 35-47). -/
def botError_from_client : ClientError → BotError
  | .TransactionError .InsufficientFunds =>
    .InsufficientFunds "Not enough funds for transaction"
  | .RpcError _ => .NetworkError "RPC connection failed"
  | e => .TransactionFailed (toString (repr e))

/-- Embeds `ErrorHandler::handle_error for TradingEngine` (src/error.rs lines 56-63):
returns whether the error is retryable. -/
def handle_error : BotError → Bool
  | .NetworkError _ | .RPCError _ => true
  | .PreLiquidityError _ | .PrivilegeError _ => true
  | .InsufficientFunds _ => false
  | _ => false

/-- Embeds `TradingEngine::is_retryable_error` (src/engine.rs lines 430-437):
`matches!(error, ClientError::RpcError(_) | ClientError::TransactionError(_) |
ClientError::IoError(_))`. -/
def is_retryable_error : ClientError → Bool
  | .RpcError _ | .TransactionError _ | .IoError _ => true
  | _ => false

/-- Embeds `TradingEngine::retry_with_backoff` (src/engine.rs lines 212-231): retry
while the error `is_retryable_error` and `retries < max_retries`.  As with the
escalation loop, `remaining = max_retries - retries` drives the recursion and
`remaining = 0` is exactly the source's `retries >= max_retries`. -/
def backoff_loop (op : Nat → Except ClientError α) :
    Nat → Nat → Except ClientError α
  | remaining, retries =>
    match op retries with
    | .ok a => .ok a
    | .error e =>
      if is_retryable_error e then
        match remaining with
        | 0 => .error e
        | r + 1 => backoff_loop op r (retries + 1)
      else .error e

def retry_with_backoff (max_retries : Nat) (op : Nat → Except ClientError α) :
    Except ClientError α :=
  backoff_loop op max_retries 0

/-- A submission that fails with `InsufficientFunds` on the first attempt and
succeeds on any later attempt. -/
def insufficientThenOk : Nat → Except ClientError Nat :=
  fun n => if n = 0 then .error (.TransactionError .InsufficientFunds) else .ok 42

/-! ## Leader pattern analysis (src/wallet.rs, `WalletState`)

`WTransaction` carries the fields of wallet.rs's `Transaction` that
`analyze_pattern` and `should_copy_trade` read. -/

structure WTransaction where
  amount_in : Nat
  input_token : Pubkey
  success : Bool
deriving Repr, DecidableEq

structure TradePattern where
  success_count : Nat
  total_trades : Nat
  avg_amount : Nat
deriving Repr, DecidableEq

/-- One iteration of `analyze_pattern`'s `for tx in &self.transaction_history`
loop (src/wallet.rs lines 75-84): bump `success_count` on success and add
`amount_in` to `avg_amount`. -/
def pattern_step (p : TradePattern) (tx : WTransaction) : TradePattern :=
  { p with
    success_count := if tx.success then p.success_count + 1 else p.success_count
    avg_amount := p.avg_amount + tx.amount_in }

/-- Embeds `WalletState::analyze_pattern` (src/wallet.rs lines 61-87): `None` when the
history is shorter than 5, otherwise fold the history accumulating
`success_count` and `avg_amount` with `total_trades = history.len()`. -/
def analyze_pattern (history : List WTransaction) : Option TradePattern :=
  if history.length < 5 then none
  else some (history.foldl pattern_step
    { success_count := 0, total_trades := history.length, avg_amount := 0 })

/-- Modelled from the spec: `TradePattern::success_rate` is called by
`WalletState::should_copy_trade` (src/wallet.rs line 93) but defined nowhere
under src; spec section 8 fixes `success_rate == successful / total`. -/
def TradePattern.success_rate (p : TradePattern) : ℚ :=
  (p.success_count : ℚ) / (p.total_trades : ℚ)

/-- Embeds `WalletState::should_copy_trade` (src/wallet.rs lines 89-96): copy iff a
pattern exists and `success_rate() > 0.7 && total_trades > 10 &&
transaction.amount_in >= min_transaction_amount` (a `None` pattern propagates
to "do not copy"). -/
def should_copy_trade (min_transaction_amount : Nat) (history : List WTransaction)
    (tx : WTransaction) : Bool :=
  match analyze_pattern history with
  | none => false
  | some p =>
    decide (p.success_rate > 7 / 10) && decide (p.total_trades > 10) &&
      decide (tx.amount_in ≥ min_transaction_amount)

/-- Ten trades, all successful: trade count and success rate sit exactly on the
spec's eligibility boundary (`trades ≥ 10`, `success_rate ≥ 0.7`). -/
def histBoundary : List WTransaction :=
  List.replicate 10 { amount_in := 1000, input_token := 3, success := true }

def txBoundary : WTransaction :=
  { amount_in := 1000, input_token := 3, success := true }

/-- The pattern `analyze_pattern` produces on `histBoundary`. -/
def patBoundary : TradePattern :=
  { success_count := 10, total_trades := 10, avg_amount := 10000 }

/-! ## Raydium DEX model (src/raydium.rs) -/

structure PoolInfo where
  liquidity : Nat
  base_amount : Nat
  quote_amount : Nat
  fee_numerator : Nat
  fee_denominator : Nat
deriving Repr, DecidableEq

/-- Embeds `RaydiumDex::calculate_price_impact` (src/raydium.rs lines 116-123).
`new_base = base_amount + amount_in` and `base_amount * quote_amount` are `u64`
operations: a release build wraps on overflow, embedded as `% 2 ^ 64`.
`new_quote = wrapped_product / new_base` is `u64` division, hence `Nat` floor
division; the `f64` divisions are embedded as exact rationals. -/
def calculate_price_impact (pool : PoolInfo) (amount_in : Nat) : ℚ :=
  let price_before : ℚ := (pool.quote_amount : ℚ) / (pool.base_amount : ℚ)
  let new_base : Nat := (pool.base_amount + amount_in) % 2 ^ 64
  let new_quote : Nat := (pool.base_amount * pool.quote_amount % 2 ^ 64) / new_base
  let price_after : ℚ := (new_quote : ℚ) / (new_base : ℚ)
  |price_before - price_after| / price_before

/-- The price-impact gate at the head of `RaydiumDex::execute_swap`
(src/raydium.rs lines 89-95): error out before building or sending anything iff
the impact exceeds `max_slippage`; `ok` means the swap goes on to submission. -/
def execute_swap_check (max_slippage : ℚ) (pool : PoolInfo) (amount_in : Nat) :
    Except String Unit :=
  if calculate_price_impact pool amount_in > max_slippage then
    .error "Price impact too high"
  else .ok ()

/-- The spec's constant-product output estimate (spec section 4.5):
`expected_out = reserve_out − (reserve_in × reserve_out) / (reserve_in +
our_amount_in)`, in the `u64` arithmetic of the snapshot. -/
def spec_expected_out (pool : PoolInfo) (amount_in : Nat) : Nat :=
  pool.quote_amount - (pool.base_amount * pool.quote_amount) / (pool.base_amount + amount_in)

/-- Price of the pool before the swap (quote per base). -/
def spec_price_before (pool : PoolInfo) : ℚ :=
  (pool.quote_amount : ℚ) / (pool.base_amount : ℚ)

/-- Price after the swap, derived from the constant-product formula: the quote
reserve drops by `spec_expected_out`, the base reserve grows by `amount_in`. -/
def spec_price_after (pool : PoolInfo) (amount_in : Nat) : ℚ :=
  ((pool.quote_amount - spec_expected_out pool amount_in : Nat) : ℚ) /
    ((pool.base_amount + amount_in : Nat) : ℚ)

/-- The spec's price impact: `|price_before − price_after| / price_before`. -/
def spec_price_impact (pool : PoolInfo) (amount_in : Nat) : ℚ :=
  |spec_price_before pool - spec_price_after pool amount_in| / spec_price_before pool

/-- Embeds `RaydiumDex::validate_liquidity` (src/raydium.rs lines 78-81): the pure
gate `pool.liquidity > self.min_liquidity` (`true` = pool passes). -/
def validate_liquidity (min_liquidity : Nat) (pool : PoolInfo) : Bool :=
  decide (pool.liquidity > min_liquidity)

structure TradeSignalM where
  price_change : ℚ
  volume_change : ℚ
  confidence : ℚ
  elapsed_secs : ℚ
deriving Repr, DecidableEq

/-- Embeds `RaydiumDex::validate_trade_conditions` (src/raydium.rs lines 221-245):
reject when `liquidity < min_liquidity`, when the signal is older than 30
seconds, or when `confidence < 0.7`. -/
def validate_trade_conditions (min_liquidity : Nat) (pool : PoolInfo)
    (signal : TradeSignalM) : Bool :=
  if pool.liquidity < min_liquidity then false
  else if signal.elapsed_secs > 30 then false
  else if signal.confidence < 7 / 10 then false
  else true

/-- A pool whose liquidity equals the configured floor of 1000. -/
def poolAtFloor : PoolInfo :=
  { liquidity := 1000, base_amount := 500, quote_amount := 500
    fee_numerator := 25, fee_denominator := 10000 }

/-- A fresh, confident signal (passes the non-liquidity checks). -/
def freshSignal : TradeSignalM :=
  { price_change := 3 / 100, volume_change := 1, confidence := 9 / 10, elapsed_secs := 1 }

/-! ### Further concrete inputs used by claim theorems and witnesses. -/

/-- A swap instruction handed to the engine's transaction builders. -/
def sampleSwapIx : EngineIx :=
  .other { program_id := 7, accounts := [1, 2, 3, 4, 5], data := [] }

/-- Engine counters after 4 submissions, 3 of them successful. -/
def engineW : TradingEngine :=
  { TradingEngine.new with transaction_count := 4, success_count := 3 }

/-- A pool whose liquidity is strictly below the floor of 1000. -/
def poolBelowFloor : PoolInfo :=
  { liquidity := 400, base_amount := 500, quote_amount := 500
    fee_numerator := 25, fee_denominator := 10000 }

/-- A 100/100 pool used to evaluate the price-impact formula. -/
def poolHundred : PoolInfo :=
  { liquidity := 10000, base_amount := 100, quote_amount := 100
    fee_numerator := 25, fee_denominator := 10000 }

/-- A pool whose `u64` reserve product overflows: both reserves are `2 ^ 32`
(about 4.3 SOL in lamports), so `base_amount * quote_amount = 2 ^ 64` wraps
to `0`. -/
def poolOverflow : PoolInfo :=
  { liquidity := 10000, base_amount := 2 ^ 32, quote_amount := 2 ^ 32
    fee_numerator := 25, fee_denominator := 10000 }

/-- An instruction that does not target the AMM program. -/
def preIx : CompiledInstruction :=
  { program_id := 3, accounts := [1], data := [9] }

/-- A first, well-formed AMM instruction. -/
def ammIxA : CompiledInstruction :=
  { program_id := 7, accounts := [20, 21, 22, 23, 24]
    data := [5, 0, 0, 0, 0, 0, 0, 0, 4, 0, 0, 0, 0, 0, 0, 0] }

/-- A second AMM instruction with different accounts and data. -/
def ammIxB : CompiledInstruction :=
  { program_id := 7, accounts := [30, 31, 32, 33, 34]
    data := [9, 0, 0, 0, 0, 0, 0, 0, 8, 0, 0, 0, 0, 0, 0, 0] }

/-! ## Theorems -/

/-- C1: the source decoder performs none of the claimed rejections.  On a
transaction whose AMM instruction has data shorter than 16 bytes it slices
`data[0..8]` out of bounds and panics (instead of returning `None`), and on a
transaction with zero signatures it happily returns `Some` (no signature-count
or tracked-leader check exists in `parse_raydium_swap`). -/
theorem parse_raydium_swap_rejections_missing :
    parse_raydium_swap 7 txShortData = .error () ∧
      parse_raydium_swap 7 txNoSigs = .ok (some swapInfoNoSigs) :=
  ⟨rfl, rfl⟩

/-- C2 counterexample: with `base_priority_fee = 1` and the default
`max_retries = 3`, three failed attempts drive the priority fee to `8`, which
exceeds the claimed hard ceiling of `5 × base`. -/
theorem escalation_exceeds_five_times_base :
    (retry_with_escalation 1 3 alwaysFailOp 1).2.priority_fee = 8 ∧
      5 * 1 < (retry_with_escalation 1 3 alwaysFailOp 1).2.priority_fee := by
  refine ⟨rfl, ?_⟩
  decide

/-- C3 counterexample: the transactions built by `execute_transaction` and
`execute_early_swap` do not start with the compute-unit-limit instruction; the
claimed order `[set-CU-limit, set-CU-price, swap]` fails on both. -/
theorem engine_order_not_limit_first :
    spec_order_limit_price_swap
        (execute_transaction TradingEngine.new sampleSwapIx 0).instructions = false ∧
      spec_order_limit_price_swap
        (execute_early_swap TradingEngine.new sampleSwapIx 5 0).instructions = false :=
  ⟨rfl, rfl⟩

/-- C3 amended: `execute_transaction` and `execute_early_swap` sign their
instructions in the order `[set-CU-price, set-CU-limit, swap]` — the
compute-unit-price instruction first, the limit second, the swap last. -/
theorem engine_instruction_order (e : TradingEngine) (ix : EngineIx)
    (signer : Pubkey) (blockhash : Nat) :
    (execute_transaction e ix blockhash).instructions =
        [EngineIx.setComputeUnitPrice e.priority_fee,
         EngineIx.setComputeUnitLimit e.compute_units, ix] ∧
      (execute_early_swap e ix signer blockhash).instructions =
        [EngineIx.setComputeUnitPrice e.priority_fee,
         EngineIx.setComputeUnitLimit e.compute_units, ix] :=
  ⟨rfl, rfl⟩

/-- C4 counterexample: `is_retryable_error` classifies
`ClientError::TransactionError(InsufficientFunds)` as retryable, and
`retry_with_backoff` therefore retries after such a failure — the second
attempt's success is returned. -/
theorem insufficient_funds_retried :
    is_retryable_error (ClientError.TransactionError TransactionError.InsufficientFunds) = true ∧
      retry_with_backoff 3 insufficientThenOk = .ok 42 :=
  ⟨rfl, rfl⟩

/-- Invariant of the escalation loop: starting from a state whose multiplier is
`2 ^ retries` and whose fee is `base × 2 ^ retries`, the final state keeps that
shape, and its retry count grows by at most `remaining`. -/
theorem escalation_loop_inv {α : Type} (base : Nat) (op : Nat → Except String α) :
    ∀ (remaining : Nat) (s : EscState) (attempt : Nat),
      s.priority_multiplier = 2 ^ s.retries →
      s.priority_fee = base * 2 ^ s.retries →
      (escalation_loop base op remaining s attempt).2.priority_multiplier =
          2 ^ (escalation_loop base op remaining s attempt).2.retries ∧
        (escalation_loop base op remaining s attempt).2.priority_fee =
          base * 2 ^ (escalation_loop base op remaining s attempt).2.retries ∧
        s.retries ≤ (escalation_loop base op remaining s attempt).2.retries ∧
        (escalation_loop base op remaining s attempt).2.retries ≤ s.retries + remaining := by
  intro remaining
  induction remaining with
  | zero =>
    intro s attempt hm hf
    cases hop : op attempt with
    | ok a => simp [escalation_loop, hop, hm, hf]
    | error e => simp [escalation_loop, hop, hm, hf]
  | succ r ih =>
    intro s attempt hm hf
    cases hop : op attempt with
    | ok a => simp [escalation_loop, hop, hm, hf]
    | error e =>
      have hm2 : (escalate_step base s).priority_multiplier =
          2 ^ (escalate_step base s).retries := by
        simp [escalate_step, hm, pow_succ]
      have hf2 : (escalate_step base s).priority_fee =
          base * 2 ^ (escalate_step base s).retries := by
        simp [escalate_step, hm, pow_succ, Nat.mul_assoc]
      have h2 := ih (escalate_step base s) (attempt + 1) hm2 hf2
      have hr : (escalate_step base s).retries = s.retries + 1 := rfl
      have hunf : escalation_loop base op (r + 1) s attempt =
          escalation_loop base op r (escalate_step base s) (attempt + 1) := by
        conv_lhs => rw [escalation_loop]
        rw [hop]
      rw [hunf]
      refine ⟨h2.1, h2.2.1, ?_, ?_⟩
      · have h3 := h2.2.2.1
        omega
      · have h4 := h2.2.2.2
        omega

/-- C2 amended: across the retry attempts for one swap, the priority fee after
`k` retries is `base × 2 ^ k` (doubled on each retry, hence monotonically
non-decreasing), the retry count never exceeds `max_retries`, and the fee is
bounded by `base × 2 ^ max_retries` — there is no `5 × base` ceiling. -/
theorem retry_escalation_fee_schedule (base max_retries : Nat)
    (op : Nat → Except String Unit) :
    (retry_with_escalation base max_retries op base).2.priority_fee =
        base * 2 ^ (retry_with_escalation base max_retries op base).2.retries ∧
      (retry_with_escalation base max_retries op base).2.retries ≤ max_retries ∧
      (retry_with_escalation base max_retries op base).2.priority_fee ≤
        base * 2 ^ max_retries ∧
      ∀ s : EscState, (escalate_step base s).priority_fee =
        base * s.priority_multiplier * 2 := by
  have h := escalation_loop_inv base op max_retries
    { retries := 0, priority_multiplier := 1, priority_fee := base } 0
    (by simp) (by simp)
  have hretry : retry_with_escalation base max_retries op base =
      escalation_loop base op max_retries
        { retries := 0, priority_multiplier := 1, priority_fee := base } 0 := rfl
  rw [hretry]
  refine ⟨h.2.1, by simpa using h.2.2.2, ?_, ?_⟩
  · rw [h.2.1]
    exact Nat.mul_le_mul_left _
      (Nat.pow_le_pow_right (by norm_num) (by simpa using h.2.2.2))
  · intro s
    simp [escalate_step, Nat.mul_assoc]

/-- C4 amended: the `BotError` classifier `handle_error` marks
`InsufficientFunds` non-retryable and the `From<ClientError>` conversion maps
an insufficient-funds transaction error to it, but the engine's own
`is_retryable_error` marks every `ClientError::TransactionError` — including
insufficient funds — retryable. -/
theorem insufficient_funds_classifiers (s : String) (e : TransactionError) :
    handle_error (BotError.InsufficientFunds s) = false ∧
      is_retryable_error (ClientError.TransactionError e) = true ∧
      botError_from_client (ClientError.TransactionError TransactionError.InsufficientFunds) =
        BotError.InsufficientFunds "Not enough funds for transaction" :=
  ⟨rfl, rfl, rfl⟩

/-- Folding `pattern_step` counts the successful transactions on top of the
accumulator's `success_count`. -/
theorem pattern_foldl_success (l : List WTransaction) :
    ∀ p : TradePattern,
      (l.foldl pattern_step p).success_count =
        p.success_count + l.countP (fun t => t.success) := by
  induction l with
  | nil => intro p; simp
  | cons tx l ih =>
    intro p
    rw [List.foldl_cons, ih, List.countP_cons]
    by_cases hs : tx.success
    · simp [pattern_step, hs]
      omega
    · simp [pattern_step, hs]

/-- Folding `pattern_step` leaves `total_trades` unchanged. -/
theorem pattern_foldl_total (l : List WTransaction) :
    ∀ p : TradePattern, (l.foldl pattern_step p).total_trades = p.total_trades := by
  induction l with
  | nil => intro p; simp
  | cons tx l ih =>
    intro p
    rw [List.foldl_cons, ih]
    rfl

/-- C5 counterexample: a leader with exactly 10 trades, all successful, sits on
the claimed eligibility boundary (`trades ≥ 10`, `success_rate ≥ 0.7`), yet
`should_copy_trade` refuses to copy because the source compares with strict
`total_trades > 10`. -/
theorem boundary_leader_not_copied :
    should_copy_trade 0 histBoundary txBoundary = false ∧
      analyze_pattern histBoundary = some patBoundary ∧
      10 ≤ patBoundary.total_trades ∧ (7 : ℚ) / 10 ≤ patBoundary.success_rate := by
  have hpat : analyze_pattern histBoundary = some patBoundary := by decide
  refine ⟨?_, hpat, by decide, ?_⟩
  · simp +decide [should_copy_trade, hpat, patBoundary]
  · rw [TradePattern.success_rate]
    norm_num [patBoundary]

/-- C5 amended: a candidate trade is copied exactly when the leader's history
is strictly longer than 10, the success rate is strictly above 0.7 (as a count
inequality, `7 × trades < 10 × successes`), and the candidate's input amount
reaches `min_transaction_amount`. -/
theorem should_copy_trade_characterization (minAmt : Nat)
    (history : List WTransaction) (tx : WTransaction) :
    should_copy_trade minAmt history tx = true ↔
      (10 < history.length ∧
        7 * history.length < 10 * history.countP (fun t => t.success) ∧
        minAmt ≤ tx.amount_in) := by
  unfold should_copy_trade analyze_pattern
  by_cases h5 : history.length < 5
  · simp [h5]
    intro h10
    omega
  · simp only [h5, if_false, Bool.and_eq_true, decide_eq_true_eq]
    rw [TradePattern.success_rate, pattern_foldl_success, pattern_foldl_total]
    simp only []
    constructor
    · rintro ⟨⟨hrate, htr⟩, hamt⟩
      refine ⟨htr, ?_, hamt⟩
      have hpos : (0 : ℚ) < (history.length : ℚ) := by
        have : 0 < history.length := by omega
        exact_mod_cast this
      rw [gt_iff_lt, div_lt_div_iff₀ (by norm_num) hpos] at hrate
      have : (7 * history.length : ℚ) <
          ((0 + history.countP (fun t => t.success)) * 10 : ℚ) := by
        push_cast at hrate
        linarith
      have hnat : 7 * history.length <
          (0 + history.countP (fun t => t.success)) * 10 := by exact_mod_cast this
      omega
    · rintro ⟨htr, hcnt, hamt⟩
      refine ⟨⟨?_, htr⟩, hamt⟩
      have hpos : (0 : ℚ) < (history.length : ℚ) := by
        have : 0 < history.length := by omega
        exact_mod_cast this
      rw [gt_iff_lt, div_lt_div_iff₀ (by norm_num) hpos]
      have hnat : 7 * history.length <
          (0 + history.countP (fun t => t.success)) * 10 := by omega
      exact_mod_cast hnat

/-- C6 counterexample: with both reserves `2 ^ 32` and `amount_in = 2 ^ 32`,
the `u64` product `base_amount * quote_amount = 2 ^ 64` wraps to `0`, so the
computed impact is `1` while the impact derived from the constant-product
formula is `3/4` — the claimed equality fails on an overflowing pool. -/
theorem price_impact_overflow_mismatch :
    calculate_price_impact poolOverflow (2 ^ 32) = 1 ∧
      spec_price_impact poolOverflow (2 ^ 32) = 3 / 4 ∧
      calculate_price_impact poolOverflow (2 ^ 32) ≠
        spec_price_impact poolOverflow (2 ^ 32) := by
  have h1 : calculate_price_impact poolOverflow (2 ^ 32) = 1 := by
    unfold calculate_price_impact poolOverflow
    norm_num
  have h2 : spec_price_impact poolOverflow (2 ^ 32) = 3 / 4 := by
    unfold spec_price_impact spec_price_after spec_price_before spec_expected_out poolOverflow
    norm_num
  refine ⟨h1, h2, ?_⟩
  rw [h1, h2]
  norm_num

/-- C6 amended: for a pool with a positive base reserve whose `u64` reserve
product `base_amount * quote_amount` and sum `base_amount + amount_in` do not
overflow, the computed price impact is exactly
`|price_before − price_after| / price_before` with `price_after` derived from
the spec's constant-product output estimate, and the gate at the head of
`execute_swap` errors out (without submitting) precisely when that impact
exceeds `max_slippage`.  On overflowing reserves the wrapped product makes the
computed impact diverge from the constant-product value. -/
theorem price_impact_matches_spec (pool : PoolInfo) (amount_in : Nat)
    (max_slippage : ℚ) (h : 0 < pool.base_amount)
    (hmul : pool.base_amount * pool.quote_amount ≤ U64_MAX)
    (hadd : pool.base_amount + amount_in ≤ U64_MAX) :
    calculate_price_impact pool amount_in = spec_price_impact pool amount_in ∧
      (execute_swap_check max_slippage pool amount_in = .error "Price impact too high" ↔
        max_slippage < calculate_price_impact pool amount_in) := by
  have hm : pool.base_amount * pool.quote_amount % 2 ^ 64 =
      pool.base_amount * pool.quote_amount := by
    apply Nat.mod_eq_of_lt
    unfold U64_MAX at hmul
    omega
  have ha : (pool.base_amount + amount_in) % 2 ^ 64 = pool.base_amount + amount_in := by
    apply Nat.mod_eq_of_lt
    unfold U64_MAX at hadd
    omega
  have hle : (pool.base_amount * pool.quote_amount) / (pool.base_amount + amount_in) ≤
      pool.quote_amount := by
    have h1 : pool.base_amount * pool.quote_amount ≤
        (pool.base_amount + amount_in) * pool.quote_amount :=
      Nat.mul_le_mul_right _ (Nat.le_add_right _ _)
    have h2 := Nat.div_le_div_right (c := pool.base_amount + amount_in) h1
    rwa [Nat.mul_div_cancel_left _ (by omega)] at h2
  have key : pool.quote_amount - spec_expected_out pool amount_in =
      (pool.base_amount * pool.quote_amount) / (pool.base_amount + amount_in) := by
    unfold spec_expected_out
    exact Nat.sub_sub_self hle
  constructor
  · unfold calculate_price_impact spec_price_impact spec_price_after spec_price_before
    rw [hm, ha, key]
  · unfold execute_swap_check
    split
    · simpa using ‹calculate_price_impact pool amount_in > max_slippage›
    · simpa using ‹¬calculate_price_impact pool amount_in > max_slippage›

/-- Witness for C6 at the 100/100 pool, `amount_in = 10`,
`max_slippage = 1/50`: reserves far below the overflow range. -/
theorem price_impact_matches_spec_witness :
    0 < poolHundred.base_amount ∧
      poolHundred.base_amount * poolHundred.quote_amount ≤ U64_MAX ∧
      poolHundred.base_amount + 10 ≤ U64_MAX ∧
      (calculate_price_impact poolHundred 10 = spec_price_impact poolHundred 10 ∧
        (execute_swap_check (1 / 50) poolHundred 10 = .error "Price impact too high" ↔
          (1 : ℚ) / 50 < calculate_price_impact poolHundred 10)) :=
  ⟨by decide, by decide, by decide,
    price_impact_matches_spec poolHundred 10 (1 / 50) (by decide) (by decide) (by decide)⟩

/-- C7 counterexample: a pool whose liquidity equals the floor exactly is
rejected by `validate_liquidity` (which demands strict `>`), while
`validate_trade_conditions` lets the same pool through — the claim's
"equality is not rejected" fails on `validate_liquidity`. -/
theorem validate_liquidity_rejects_equal_floor :
    validate_liquidity 1000 poolAtFloor = false ∧
      validate_trade_conditions 1000 poolAtFloor freshSignal = true := by
  constructor
  · decide
  · unfold validate_trade_conditions poolAtFloor freshSignal
    norm_num

/-- C7 amended: a pool with liquidity at or below the floor is rejected by
`validate_liquidity` regardless of all other parameters, and
`validate_trade_conditions` also rejects whenever liquidity is strictly below
the floor; at exact equality the two gates disagree (`validate_liquidity`
rejects, `validate_trade_conditions` does not reject on liquidity grounds). -/
theorem liquidity_floor_rejection (min_liquidity : Nat) (pool : PoolInfo)
    (signal : TradeSignalM) (h : pool.liquidity ≤ min_liquidity) :
    validate_liquidity min_liquidity pool = false ∧
      (pool.liquidity < min_liquidity →
        validate_trade_conditions min_liquidity pool signal = false) := by
  constructor
  · unfold validate_liquidity
    simp
    omega
  · intro hlt
    unfold validate_trade_conditions
    rw [if_pos hlt]

/-- Witness for C7 at a pool 600 below the floor. -/
theorem liquidity_floor_rejection_witness :
    poolBelowFloor.liquidity ≤ 1000 ∧
      (validate_liquidity 1000 poolBelowFloor = false ∧
        (poolBelowFloor.liquidity < 1000 →
          validate_trade_conditions 1000 poolBelowFloor freshSignal = false)) :=
  ⟨by decide, liquidity_floor_rejection 1000 poolBelowFloor freshSignal (by decide)⟩

/-- C8: the decoder's result is determined by the first instruction targeting
the AMM program: for any transaction whose instruction list is `pre ++ ix ::
post` with no AMM instruction in `pre` and `ix` targeting the AMM program, the
decode equals the decode of the transaction containing `ix` alone — every
later instruction (AMM or not) is ignored, so the decoder is deterministic in
its first AMM instruction. -/
theorem first_amm_instruction_wins (amm : Pubkey) (sigs : List Nat)
    (pre post : List CompiledInstruction) (ix : CompiledInstruction)
    (hpre : no_amm_in amm pre = true) (hix : ix.program_id = amm) :
    parse_raydium_swap amm
        { signatures := sigs, message := { instructions := pre ++ ix :: post } } =
      parse_raydium_swap amm
        { signatures := sigs, message := { instructions := [ix] } } := by
  unfold parse_raydium_swap
  have hfind : (pre ++ ix :: post).find? (fun j => j.program_id == amm) = some ix := by
    induction pre with
    | nil =>
      simp [List.find?_cons, hix]
    | cons a l ihp =>
      have hal : no_amm_in amm (a :: l) = true := hpre
      unfold no_amm_in at hal
      rw [List.all_cons, Bool.and_eq_true] at hal
      have ha : (a.program_id == amm) = false := by
        cases hcmp : a.program_id == amm
        · rfl
        · exact absurd hcmp (by simpa using hal.1)
      rw [List.cons_append, List.find?_cons, ha]
      exact ihp hal.2
  have hone : ([ix].find? (fun j => j.program_id == amm)) = some ix := by
    simp [List.find?_cons, hix]
  rw [hfind, hone]

/-- Witness for C8: with a non-AMM instruction first and two AMM instructions
after it, the decode matches the decode of the first AMM instruction alone. -/
theorem first_amm_instruction_wins_witness :
    no_amm_in 7 [preIx] = true ∧ ammIxA.program_id = 7 ∧
      parse_raydium_swap 7
          { signatures := [1], message := { instructions := [preIx, ammIxA, ammIxB] } } =
        parse_raydium_swap 7
          { signatures := [1], message := { instructions := [ammIxA] } } :=
  ⟨rfl, rfl, first_amm_instruction_wins 7 [1] [preIx] [ammIxB] ammIxA rfl rfl⟩

/-- C9: `get_success_rate` never reaches the division with a zero divisor — it
short-circuits to `0` when `transaction_count = 0` and otherwise returns the
exact ratio, which is a well-defined number in `[0, 1]` whenever
`success_count ≤ transaction_count`. -/
theorem get_success_rate_no_div_zero (e : TradingEngine)
    (h : e.success_count ≤ e.transaction_count) :
    get_success_rate e =
        some (if e.transaction_count = 0 then 0
          else (e.success_count : ℚ) / (e.transaction_count : ℚ)) ∧
      0 ≤ (get_success_rate e).getD 0 ∧ (get_success_rate e).getD 0 ≤ 1 := by
  unfold get_success_rate checked_div
  by_cases h0 : e.transaction_count = 0
  · simp [h0]
  · have hq : ((e.transaction_count : ℚ)) ≠ 0 := by
      exact_mod_cast h0
    have hpos : (0 : ℚ) < (e.transaction_count : ℚ) := by
      have : 0 < e.transaction_count := Nat.pos_of_ne_zero h0
      exact_mod_cast this
    rw [if_neg h0, if_neg hq, if_neg h0]
    simp only [Option.getD_some, eq_self_iff_true, true_and]
    refine ⟨by positivity, ?_⟩
    rw [div_le_one hpos]
    exact_mod_cast h

/-- Witness for C9 at 3 successes out of 4 submissions. -/
theorem get_success_rate_no_div_zero_witness :
    engineW.success_count ≤ engineW.transaction_count ∧
      (get_success_rate engineW =
          some (if engineW.transaction_count = 0 then 0
            else (engineW.success_count : ℚ) / (engineW.transaction_count : ℚ)) ∧
        0 ≤ (get_success_rate engineW).getD 0 ∧ (get_success_rate engineW).getD 0 ≤ 1) :=
  ⟨by decide, get_success_rate_no_div_zero engineW (by decide)⟩

/-- C10: `max_priority_fee` triples the base fee with saturating `u64`
multiplication: the result never exceeds `u64::MAX`, never drops below the
base fee (for an in-range base), equals `3 × base` when that fits, and clamps
to `u64::MAX` otherwise. -/
theorem max_priority_fee_saturates (base_fee : Nat) (h : base_fee ≤ U64_MAX) :
    max_priority_fee base_fee ≤ U64_MAX ∧
      base_fee ≤ max_priority_fee base_fee ∧
      max_priority_fee base_fee =
        if base_fee * 3 ≤ U64_MAX then base_fee * 3 else U64_MAX := by
  unfold max_priority_fee saturating_mul_u64
  refine ⟨Nat.min_le_right _ _, ?_, ?_⟩
  · exact le_min (Nat.le_mul_of_pos_right _ (by norm_num)) h
  · rcases Nat.lt_or_ge U64_MAX (base_fee * 3) with hc | hc
    · rw [if_neg (by omega), Nat.min_eq_right (by omega)]
    · rw [if_pos hc, Nat.min_eq_left hc]

/-- Witness for C10 at `base_fee = 2 ^ 63`, where the product saturates. -/
theorem max_priority_fee_saturates_witness :
    2 ^ 63 ≤ U64_MAX ∧
      (max_priority_fee (2 ^ 63) ≤ U64_MAX ∧
        2 ^ 63 ≤ max_priority_fee (2 ^ 63) ∧
        max_priority_fee (2 ^ 63) =
          if 2 ^ 63 * 3 ≤ U64_MAX then 2 ^ 63 * 3 else U64_MAX) :=
  ⟨by decide, max_priority_fee_saturates (2 ^ 63) (by decide)⟩

end Bot
